import Mathlib

/-!
Verification of the voter-registry RAG core: a shallow embedding of
`src/utils/data_loader.py` (SQL-dump record parser and document synthesizer)
and `src/rag/chain.py` (follow-up classifier and conversation dispatcher),
with theorems settling the specification's claims about them.

Python strings that may be `None` are modelled as `Option String`
(`none` = Python `None`).  Python dicts with the fixed column keys are
modelled as association lists in insertion order.  All string scanning is
done on `List Char`, matching Python's per-character iteration.  Python's
Unicode-aware character classes are modelled by Lean's ASCII ones
(`\d` / `\s` / `str.strip()` / `str.lower()` become `Char.isDigit`,
`Char.isWhitespace`, `Char.toLower`); no claim depends on non-ASCII digits,
exotic whitespace, or case folding outside the Latin script (Bengali has no
case).
-/

set_option maxRecDepth 10000

/-- A Python value that is either a string or `None`. -/
abbrev PyVal := Option String

/-- A parsed voter record: the Python dict `{column name: string-or-None}`,
in insertion order. -/
abbrev VoterRecord := List (String × PyVal)

/-- The 23 declared column names of `parse_sql_dump` (data_loader.py lines 24-30). -/
def columns : List String :=
  ["id", "serial_bn", "serial", "name", "name_normalized",
   "voter_id_bn", "voter_id", "father_name", "father_name_normalized",
   "mother_name", "occupation", "date_of_birth", "address",
   "voter_area_no_bn", "voter_area_no", "union", "ward_bn", "ward",
   "gender", "created_at", "updated_at", "phonetic_name", "phonetic_father_name"]

/-- Python `dict.get(key, default)`: the stored value when the key is present
(even when that value is `None`), the default only when the key is absent. -/
def pyGet (r : VoterRecord) (k : String) (d : PyVal) : PyVal :=
  match r.lookup k with
  | some v => v
  | none => d

/-- Python `str(value)` on a string-or-None value: `None` prints as "None". -/
def pyStr (v : PyVal) : String :=
  match v with
  | none => "None"
  | some s => s

/-- Python `str.strip()`: drop whitespace from both ends. -/
def stripChars (l : List Char) : List Char :=
  ((l.dropWhile Char.isWhitespace).reverse.dropWhile Char.isWhitespace).reverse

/-- Python `str.strip("'")`: drop apostrophes from both ends. -/
def stripQuoteChars (l : List Char) : List Char :=
  ((l.dropWhile (fun c => c = '\'')).reverse.dropWhile (fun c => c = '\'')).reverse

/-- Python slice `s[1:-1]`: drop the first and last character. -/
def dropFirstLast (l : List Char) : List Char :=
  (l.drop 1).dropLast

/-- Whether a substring occurs in a character list (Python's `sub in s`). -/
def containsSub (sub : List Char) : List Char → Bool
  | [] => sub.isEmpty
  | c :: rest => sub.isPrefixOf (c :: rest) || containsSub sub rest

/-- The quote-aware comma splitter of `parse_record_values` (data_loader.py
lines 119-137): one pass over the characters with an `in_quotes` flag,
emitting the stripped accumulated token at each comma outside quotes,
and the final token when non-empty. -/
def splitVals : List Char → List Char → Bool → List (List Char)
  | [], cur, _ => if cur.isEmpty then [] else [stripChars cur.reverse]
  | c :: rest, cur, inQ =>
    if c = '\'' then splitVals rest (c :: cur) (!inQ)
    else if c = ',' && !inQ then stripChars cur.reverse :: splitVals rest [] inQ
    else splitVals rest (c :: cur) inQ

/-- The token cleanup of `parse_record_values` (data_loader.py lines 140-147):
strip whitespace, then strip one enclosing quote pair, else map the literal
`NULL` to `None`. -/
def cleanVal (tok : List Char) : PyVal :=
  let v := stripChars tok
  if v.head? = some '\'' && v.getLast? = some '\'' then some (String.mk (dropFirstLast v))
  else if v = "NULL".toList then none
  else some (String.mk v)

/-- `parse_record_values` (data_loader.py lines 115-149) on a character list. -/
def parseRecordValuesL (record : List Char) : List PyVal :=
  (splitVals record [] false).map cleanVal

/-- `parse_record_values` on a string. -/
def parse_record_values (record : String) : List PyVal :=
  parseRecordValuesL record.toList

/-- The three value-token forms of the primary row regex `insert_pattern`
(data_loader.py line 36): a bare integer `(\d+)`, a quoted string
`'([^']*)'` whose captured group excludes the quotes, and the alternation
`(NULL|'[^']*')` whose captured group keeps the quotes. -/
inductive FieldKind
  | num
  | quoted
  | nullOrQuoted
deriving DecidableEq

/-- The per-position token forms of `insert_pattern`, in column order. -/
def fieldKinds : List FieldKind :=
  [.num, .quoted, .quoted, .quoted, .quoted, .nullOrQuoted, .nullOrQuoted,
   .quoted, .quoted, .quoted, .nullOrQuoted, .quoted, .quoted, .quoted,
   .quoted, .quoted, .quoted, .quoted, .quoted, .quoted, .quoted, .quoted, .quoted]

/-- Match `\d+` (greedy; the following separator comma is not a digit, so the
maximal run is the only possible match). Returns the captured group and the rest. -/
def matchDigits (cs : List Char) : Option (List Char × List Char) :=
  let d := cs.takeWhile Char.isDigit
  if d.isEmpty then none else some (d, cs.dropWhile Char.isDigit)

/-- Match `'[^']*'`, returning the group captured between the quotes and the rest. -/
def matchQuotedContent : List Char → Option (List Char × List Char)
  | '\'' :: rest =>
    match rest.dropWhile (fun c => c ≠ '\'') with
    | '\'' :: rest2 => some (rest.takeWhile (fun c => c ≠ '\''), rest2)
    | _ => none
  | _ => none

/-- Match `(NULL|'[^']*')`: the `NULL` branch first (the two branches start
with different characters, so the alternation is deterministic); the captured
group of the quoted branch keeps its quotes, as in the regex. -/
def matchNullOrQuoted (cs : List Char) : Option (List Char × List Char) :=
  match cs with
  | 'N' :: 'U' :: 'L' :: 'L' :: rest => some ("NULL".toList, rest)
  | _ =>
    match matchQuotedContent cs with
    | some (content, rest) => some ('\'' :: (content ++ ['\'']), rest)
    | none => none

/-- Match one token of the given form. -/
def matchKind : FieldKind → List Char → Option (List Char × List Char)
  | .num, cs => matchDigits cs
  | .quoted, cs => matchQuotedContent cs
  | .nullOrQuoted, cs => matchNullOrQuoted cs

/-- Match the separator `,\s*` (greedy; every token begins with a
non-whitespace character, so the maximal whitespace run is the only match). -/
def matchSep : List Char → Option (List Char)
  | ',' :: rest => some (rest.dropWhile Char.isWhitespace)
  | _ => none

/-- Match the comma-and-whitespace-separated field sequence of the row
pattern, returning the 23 captured groups and the rest. -/
def matchFieldSeq : List FieldKind → List Char → Option (List (List Char) × List Char)
  | [], cs => some ([], cs)
  | [k], cs =>
    match matchKind k cs with
    | some (g, rest) => some ([g], rest)
    | none => none
  | k :: k2 :: ks, cs =>
    match matchKind k cs with
    | none => none
    | some (g, rest) =>
      match matchSep rest with
      | none => none
      | some rest2 =>
        match matchFieldSeq (k2 :: ks) rest2 with
        | none => none
        | some (gs, rest3) => some (g :: gs, rest3)

/-- Match the whole row pattern `\( fields \)` at the current position. -/
def matchRow (cs : List Char) : Option (List String × List Char) :=
  match cs with
  | '(' :: rest =>
    match matchFieldSeq fieldKinds rest with
    | some (gs, ')' :: rest2) => some (gs.map String.mk, rest2)
    | _ => none
  | _ => none

/-- The scan of `re.findall` (data_loader.py line 38): try the row pattern at
each position left to right, emitting each match's groups and resuming after
it.  The fuel starts at the input length; every step consumes at least one
character (a match always consumes its opening parenthesis), so the fuel
never runs out before the input does. -/
def findRowsAux : Nat → List Char → List (List String)
  | _, [] => []
  | 0, _ => []
  | fuel + 1, c :: cs =>
    match matchRow (c :: cs) with
    | some (gs, rest) => gs :: findRowsAux fuel rest
    | none => findRowsAux fuel cs

/-- All matches of the primary row pattern in the dump text. -/
def findRows (cs : List Char) : List (List String) :=
  findRowsAux cs.length cs

/-- The per-group cleanup of the primary strategy (data_loader.py lines 44-51):
the literal `NULL` becomes `None`, an enclosing quote pair is stripped,
anything else is kept as-is. -/
def cleanPrimary (value : String) : PyVal :=
  if value = "NULL" then none
  else if value.toList.head? = some '\'' && value.toList.getLast? = some '\'' then
    some (String.mk (dropFirstLast value.toList))
  else some value

/-- Build one record from a primary match (data_loader.py lines 40-54): the
i-th column takes the cleaned i-th group, and columns beyond the groups (never
reached: the pattern has exactly 23 groups) take `None`. -/
def buildPrimary : List String → List String → VoterRecord
  | [], _ => []
  | c :: cols, [] => (c, none) :: buildPrimary cols []
  | c :: cols, g :: gs => (c, cleanPrimary g) :: buildPrimary cols gs

/-- Python `content.split('\n')` (keeps empty pieces). -/
def splitNl : List Char → List Char → List String
  | [], acc => [String.mk acc.reverse]
  | '\n' :: rest, acc => String.mk acc.reverse :: splitNl rest []
  | c :: rest, acc => splitNl rest (c :: acc)

/-- Whether a line turns the fallback's `in_values` flag on (data_loader.py
line 75): it contains both `INSERT INTO` and `voters`. -/
def isInsertLine (line : String) : Bool :=
  containsSub "INSERT INTO".toList line.toList && containsSub "voters".toList line.toList

/-- The fallback's line accumulation (data_loader.py lines 70-80): every line
after the first `INSERT INTO ... voters` line is concatenated (the newlines
are lost, since the split lines are joined bare). -/
def gatherValues : List String → Bool → List Char
  | [], _ => []
  | line :: rest, inValues =>
    if isInsertLine line then gatherValues rest true
    else if inValues then line.toList ++ gatherValues rest true
    else gatherValues rest false

/-- Match the row-separator regex `\),\s*\n?\(` of `re.split` (data_loader.py
line 84) at the current position: `),` then a maximal whitespace run then `(`
(the optional newline is subsumed by `\s*`, which already matches newlines).
Returns the rest after the separator. -/
def matchDelim : List Char → Option (List Char)
  | ')' :: ',' :: rest =>
    match rest.dropWhile Char.isWhitespace with
    | '(' :: rest2 => some rest2
    | _ => none
  | _ => none

/-- The scan of `re.split`: split at each leftmost separator match.  The fuel
starts at the input length; a separator consumes at least three characters,
so the fuel never runs out before the input does. -/
def splitRowsAux : Nat → List Char → List Char → List (List Char)
  | _, [], acc => [acc.reverse]
  | 0, cs, acc => [acc.reverse ++ cs]
  | fuel + 1, c :: cs, acc =>
    match matchDelim (c :: cs) with
    | some rest => acc.reverse :: splitRowsAux fuel rest []
    | none => splitRowsAux fuel cs (c :: acc)

/-- `re.split(r'\),\s*\n?\(', current_values)`. -/
def splitRows (cs : List Char) : List (List Char) :=
  splitRowsAux cs.length cs []

/-- The chunk cleanup of the fallback loop (data_loader.py lines 87-94):
strip whitespace, then a leading `(`, then a trailing `);`, then a
trailing `)` (three separate ifs, applied in sequence). -/
def cleanChunk (l : List Char) : List Char :=
  let l1 := stripChars l
  let l2 := if l1.head? = some '(' then l1.drop 1 else l1
  let l3 :=
    match l2.reverse with
    | ';' :: ')' :: _ => l2.dropLast.dropLast
    | _ => l2
  if l3.getLast? = some ')' then l3.dropLast else l3

/-- The per-value cleanup of the fallback loop (data_loader.py lines 106-109):
`None` and the string `NULL` become `None`; any other string is stripped of
leading/trailing apostrophes. -/
def cleanAlt : PyVal → PyVal
  | none => none
  | some s => if s = "NULL" then none else some (String.mk (stripQuoteChars s.toList))

/-- Build one record from the fallback's parsed values (data_loader.py lines
103-109): the i-th column takes the cleaned i-th value, columns beyond the
values take `None`, and values beyond the columns are dropped. -/
def buildAlt : List String → List PyVal → VoterRecord
  | [], _ => []
  | c :: cols, [] => (c, cleanAlt none) :: buildAlt cols []
  | c :: cols, v :: vs => (c, cleanAlt v) :: buildAlt cols vs

/-- Process one row chunk of the fallback loop (data_loader.py lines 86-110):
clean it, skip it when empty, parse its values, and emit a record only when
there are at least as many values as columns. -/
def processChunk (cols : List String) (chunk : List Char) : Option VoterRecord :=
  if (cleanChunk chunk).isEmpty then none
  else if cols.length ≤ (parseRecordValuesL (cleanChunk chunk)).length then
    some (buildAlt cols (parseRecordValuesL (cleanChunk chunk)))
  else none

/-- `parse_sql_alternative` (data_loader.py lines 63-112). -/
def parse_sql_alternative (content : String) (cols : List String) : List VoterRecord :=
  let currentValues := gatherValues (splitNl content.toList []) false
  (splitRows currentValues).filterMap (processChunk cols)

/-- `parse_sql_dump` (data_loader.py lines 10-60) on the dump text: the
primary regex strategy, falling back to `parse_sql_alternative` when it
yields zero records. -/
def parse_sql_dump (content : String) : List VoterRecord :=
  let voters := (findRows content.toList).map (buildPrimary columns)
  if voters.length = 0 then parse_sql_alternative content columns else voters

/-- One optional text-body line of `create_voter_documents` (data_loader.py
lines 169-210): present exactly when the field's value is truthy in Python
(a non-`None`, non-empty string), rendered as label followed by the value. -/
def fieldLine (voter : VoterRecord) (key label : String) : Option String :=
  match pyGet voter key none with
  | none => none
  | some s => if s.isEmpty then none else some (label ++ s)

/-- The text-body lines of one document, in the fixed order of
`create_voter_documents` (data_loader.py lines 166-210). -/
def textParts (voter : VoterRecord) : List String :=
  List.filterMap id
  [fieldLine voter "name" "নাম (Name): ",
   fieldLine voter "phonetic_name" "Phonetic Name: ",
   fieldLine voter "father_name" "পিতার নাম (Father's Name): ",
   fieldLine voter "phonetic_father_name" "Phonetic Father: ",
   fieldLine voter "mother_name" "মাতার নাম (Mother's Name): ",
   fieldLine voter "occupation" "পেশা (Occupation): ",
   fieldLine voter "date_of_birth" "জন্ম তারিখ (Date of Birth): ",
   fieldLine voter "address" "ঠিকানা (Address): ",
   fieldLine voter "ward" "ওয়ার্ড নং (Ward No): ",
   fieldLine voter "ward_bn" "ওয়ার্ড (বাংলা): ",
   fieldLine voter "union" "ইউনিয়ন (Union): ",
   fieldLine voter "gender" "লিঙ্গ (Gender): ",
   fieldLine voter "serial" "ক্রমিক নং (Serial): "]

/-- Python `'\n'.join(parts)`. -/
def joinNl : List String → String
  | [] => ""
  | [s] => s
  | s :: rest => s ++ "\n" ++ joinNl rest

/-- A synthesized retrieval document (data_loader.py lines 213-229). -/
structure VoterDoc where
  id : String
  content : String
  metadata : List (String × PyVal)
deriving DecidableEq

/-- Build one document from one record (data_loader.py lines 164-230).  The
metadata values come from `voter.get(key, '')`, whose `''` default applies
only when the key is absent from the dict; the `id` additionally goes
through `str(...)`. -/
def mkVoterDoc (voter : VoterRecord) : VoterDoc :=
  { id := pyStr (pyGet voter "id" (some ""))
    content := joinNl (textParts voter)
    metadata :=
      [("id", some (pyStr (pyGet voter "id" (some "")))),
       ("name", pyGet voter "name" (some "")),
       ("father_name", pyGet voter "father_name" (some "")),
       ("mother_name", pyGet voter "mother_name" (some "")),
       ("occupation", pyGet voter "occupation" (some "")),
       ("ward", pyGet voter "ward" (some "")),
       ("union", pyGet voter "union" (some "")),
       ("gender", pyGet voter "gender" (some "")),
       ("date_of_birth", pyGet voter "date_of_birth" (some "")),
       ("address", pyGet voter "address" (some "")),
       ("serial", pyGet voter "serial" (some ""))] }

/-- `create_voter_documents` (data_loader.py lines 152-232). -/
def create_voter_documents (voters : List VoterRecord) : List VoterDoc :=
  voters.map mkVoterDoc

/-- The fixed bilingual indicator list of `_is_follow_up` (chain.py
lines 231-235). -/
def follow_up_indicators : List String :=
  ["তার", "তাদের", "তিনি", "সেই", "ঐ",
   "his", "her", "their", "they", "that", "those",
   "কতজন", "কোথায়", "কখন"]

/-- Python `str.lower()` (character-wise; the Bengali indicators have no case). -/
def toLowerStr (s : String) : String :=
  String.mk (s.toList.map Char.toLower)

/-- Python `str.split()` with no separator: split on whitespace runs,
dropping empty tokens. -/
def splitWsAux : List Char → List Char → List String
  | [], acc => if acc.isEmpty then [] else [String.mk acc.reverse]
  | c :: rest, acc =>
    if c.isWhitespace then
      if acc.isEmpty then splitWsAux rest [] else String.mk acc.reverse :: splitWsAux rest []
    else splitWsAux rest (c :: acc)

/-- The whitespace-delimited words of a question. -/
def splitWs (s : String) : List String :=
  splitWsAux s.toList []

/-- `ConversationManager._is_follow_up` (chain.py lines 227-238): some
indicator occurs in the lowercased question, and the question has fewer
than 5 whitespace-delimited words. -/
def is_follow_up (question : String) : Bool :=
  let ql := toLowerStr question
  follow_up_indicators.any (fun ind => containsSub ind.toList ql.toList)
    && (splitWs question).length < 5

/-- One conversation turn: the question/answer pair appended to
`ConversationManager.history` (chain.py lines 185-190). -/
structure Turn where
  question : String
  answer : String
deriving DecidableEq

/-- The condition under which `ConversationManager.chat` (chain.py lines
213-217) rewrites the query: the history is non-empty and `_is_follow_up`
holds for the question. -/
def classifiedFollowUp (history : List Turn) (question : String) : Bool :=
  !history.isEmpty && is_follow_up question

/-- The effective query of `ConversationManager.chat` (chain.py lines
210-217): the question verbatim, except that with a non-empty history and a
follow-up question it becomes the two-line frame built from the most recent
turn's question. -/
def effectiveQuery (history : List Turn) (question : String) : String :=
  match history.getLast? with
  | none => question
  | some t =>
    if is_follow_up question then
      "Previous question: " ++ t.question ++ "\nCurrent question: " ++ question
    else question

/-- `ConversationManager.chat` (chain.py lines 200-225) with the external
retrieval+generation call `rag_chain.query` passed in as an oracle; a `none`
answer models the external call raising.  Returns the history after the call
and the result: on failure the exception propagates before
`add_to_history` runs, so the history is returned unchanged with no result. -/
def chat {α : Type} (rag : String → Option (String × List α))
    (history : List Turn) (question : String) :
    List Turn × Option (String × List α) :=
  match rag (effectiveQuery history question) with
  | none => (history, none)
  | some (ans, docs) => (history ++ [⟨question, ans⟩], some (ans, docs))





/-- A record whose `id` key is present but holds `None`. -/
def idNullVoter : VoterRecord := [("id", none)]

/-- A single well-formed 23-field row-tuple (digits, quoted strings, and
`NULL` at the three nullable positions of the row grammar). -/
def wellFormedRow : String :=
  "(1,'a','b','c','d',NULL,'e','f','g','h',NULL,'i','j','k','l','m','n','o','p','q','r','s','t')"

/-- A full 23-key record as both parsing strategies emit it, with the
`occupation` key present and holding `None` (a row whose occupation value
was `NULL`). -/
def occNullVoter : VoterRecord :=
  [("id", some "7"), ("serial_bn", some "১"), ("serial", some "12"), ("name", some "করিম"),
   ("name_normalized", some "korim"), ("voter_id_bn", none), ("voter_id", some "V19"),
   ("father_name", some "রহিম"), ("father_name_normalized", some "rohim"),
   ("mother_name", some "সালমা"), ("occupation", none), ("date_of_birth", some "1990"),
   ("voter_area_no_bn", some "২"), ("voter_area_no", some "2"), ("address", some "বাবরা"),
   ("union", some "বাবরা"), ("ward_bn", some "১"), ("ward", some "1"),
   ("gender", some "male"), ("created_at", some "t1"), ("updated_at", some "t2"),
   ("phonetic_name", some "Korim"), ("phonetic_father_name", some "Rohim")]

/-- The record that parsing `wellFormedRow` alone produces. -/
def wellFormedParsed : VoterRecord :=
  [("id", some "1"), ("serial_bn", some "a"), ("serial", some "b"), ("name", some "c"),
   ("name_normalized", some "d"), ("voter_id_bn", none), ("voter_id", some "e"),
   ("father_name", some "f"), ("father_name_normalized", some "g"), ("mother_name", some "h"),
   ("occupation", none), ("date_of_birth", some "i"), ("address", some "j"),
   ("voter_area_no_bn", some "k"), ("voter_area_no", some "l"), ("union", some "m"),
   ("ward_bn", some "n"), ("ward", some "o"), ("gender", some "p"), ("created_at", some "q"),
   ("updated_at", some "r"), ("phonetic_name", some "s"), ("phonetic_father_name", some "t")]

/-! ## Helper lemmas -/

theorem keys_buildPrimary (cols : List String) (gs : List String) :
    (buildPrimary cols gs).map Prod.fst = cols := by
  induction cols generalizing gs with
  | nil => simp [buildPrimary]
  | cons c cols ih =>
    cases gs with
    | nil => simpa [buildPrimary] using ih []
    | cons g gs => simpa [buildPrimary] using ih gs

theorem keys_buildAlt (cols : List String) (vs : List PyVal) :
    (buildAlt cols vs).map Prod.fst = cols := by
  induction cols generalizing vs with
  | nil => simp [buildAlt]
  | cons c cols ih =>
    cases vs with
    | nil => simpa [buildAlt] using ih []
    | cons v vs => simpa [buildAlt] using ih vs

theorem buildAlt_take (cols : List String) (vs : List PyVal) :
    buildAlt cols (vs.take cols.length) = buildAlt cols vs := by
  induction cols generalizing vs with
  | nil => simp [buildAlt]
  | cons c cols ih =>
    cases vs with
    | nil => simp [buildAlt]
    | cons v vs => simpa [buildAlt] using ih vs

/-! ## Claim theorems -/

/-- C2: a question is classified as a follow-up (i.e. `chat` rewrites it)
iff the history is non-empty, the question has strictly fewer than 5
whitespace-delimited words, and the lowercased question contains some token
of the fixed bilingual indicator list; in particular, with empty history
every question is classified as non-follow-up. -/
theorem C2_follow_up_classification (history : List Turn) (question : String) :
    (classifiedFollowUp history question = true ↔
      history ≠ [] ∧
      (splitWs question).length < 5 ∧
      ∃ ind ∈ follow_up_indicators,
        containsSub ind.toList (toLowerStr question).toList = true) ∧
    (history = [] → classifiedFollowUp history question = false) := by
  constructor
  · simp only [classifiedFollowUp, is_follow_up, Bool.and_eq_true, List.any_eq_true,
      Bool.not_eq_true', List.isEmpty_eq_false, decide_eq_true_eq]
    tauto
  · rintro rfl
    simp [classifiedFollowUp]

/-- Witness for C2 at a concrete history and question. -/
theorem C2_witness : classifiedFollowUp [⟨"Q1", "A1"⟩] "his" = true :=
  (C2_follow_up_classification [⟨"Q1", "A1"⟩] "his").1.mpr
    ⟨by decide, by decide, "his", by decide, by decide⟩

/-- C9: when the external retrieval+generation call fails (modelled as the
oracle returning `none`, i.e. raising), `chat` leaves the history exactly as
it was and surfaces no result. -/
theorem C9_failure_preserves_history {α : Type} (rag : String → Option (String × List α))
    (history : List Turn) (question : String)
    (h : rag (effectiveQuery history question) = none) :
    chat rag history question = (history, none) := by
  unfold chat
  rw [h]

/-- Witness for C9 at a concrete failing oracle. -/
theorem C9_witness :
    chat (fun _ => (none : Option (String × List String))) [⟨"Q1", "A1"⟩] "Q3" =
      ([⟨"Q1", "A1"⟩], none) :=
  C9_failure_preserves_history _ _ _ rfl

/-- C10: when the `id` field is present with value `None`, the synthesized
document's `id` and its metadata `id` entry are the string "None" produced by
Python's `str(None)`, not the empty string. -/
theorem C10_null_id_renders_none (voter : VoterRecord)
    (h : voter.lookup "id" = some none) :
    (mkVoterDoc voter).id = "None" ∧
    (mkVoterDoc voter).metadata.lookup "id" = some (some "None") ∧
    (mkVoterDoc voter).id ≠ "" := by
  have hg : pyGet voter "id" (some "") = none := by
    unfold pyGet
    rw [h]
  refine ⟨?_, ?_, ?_⟩ <;> simp [mkVoterDoc, pyStr, hg, List.lookup]

/-- Witness for C10 at a concrete record. -/
theorem C10_witness :
    (mkVoterDoc idNullVoter).id = "None" ∧
    (mkVoterDoc idNullVoter).metadata.lookup "id" = some (some "None") ∧
    (mkVoterDoc idNullVoter).id ≠ "" :=
  C10_null_id_renders_none idNullVoter rfl

/-- C6 counterexample: on a dump where the primary strategy matches zero rows
and the fallback also yields zero rows, `parse_sql_dump` silently returns the
empty record list rather than raising any fatal condition (it is a total
function into `List VoterRecord`). -/
theorem C6_counterexample :
    findRows "hello world".toList = [] ∧
    parse_sql_alternative "hello world" columns = [] ∧
    parse_sql_dump "hello world" = [] := by decide

/-- C6 as amended: when both strategies yield zero rows, `parse_sql_dump`
returns the empty list to its caller; the empty record set is silently
substituted, with no parse-level error. -/
theorem C6_exhaustion_returns_empty (content : String)
    (h1 : findRows content.toList = [])
    (h2 : parse_sql_alternative content columns = []) :
    parse_sql_dump content = [] := by
  unfold parse_sql_dump
  rw [h1]
  simpa using h2

/-- Witness for C6 at a concrete dump text. -/
theorem C6_witness : parse_sql_dump "no insert statements here" = [] :=
  C6_exhaustion_returns_empty _ (by decide) (by decide)

/-- C3 counterexample: the rewritten query uses the capitalized labels
`Previous question:` / `Current question:` of chain.py line 217, not the
lowercase labels the claim states. -/
theorem C3_counterexample :
    effectiveQuery [⟨"Q1", "A1"⟩] "his" = "Previous question: Q1\nCurrent question: his" ∧
    effectiveQuery [⟨"Q1", "A1"⟩] "his" ≠ "previous question: Q1\ncurrent question: his" := by
  decide

/-- C3 as amended: after `chat(Q1)` succeeds and Q2 is classified as a
follow-up, the effective query sent to the oracle for Q2 is the two-line
frame "Previous question: Q1" then "Current question: Q2" (capitalized
labels), built from only the most recent turn's question; the history after
both calls extends the prior history with two turns holding the original,
non-rewritten question texts and their answers. -/
theorem C3_follow_up_query_frame {α : Type} (rag1 rag2 : String → Option (String × List α))
    (hist0 : List Turn) (q1 q2 a1 a2 : String) (d1 d2 : List α)
    (h1 : rag1 (effectiveQuery hist0 q1) = some (a1, d1))
    (h2 : classifiedFollowUp (hist0 ++ [⟨q1, a1⟩]) q2 = true)
    (h3 : rag2 ("Previous question: " ++ q1 ++ "\nCurrent question: " ++ q2) = some (a2, d2)) :
    chat rag1 hist0 q1 = (hist0 ++ [⟨q1, a1⟩], some (a1, d1)) ∧
    effectiveQuery (hist0 ++ [⟨q1, a1⟩]) q2 =
      "Previous question: " ++ q1 ++ "\nCurrent question: " ++ q2 ∧
    chat rag2 (hist0 ++ [⟨q1, a1⟩]) q2 =
      (hist0 ++ [⟨q1, a1⟩, ⟨q2, a2⟩], some (a2, d2)) ∧
    (hist0 ++ [Turn.mk q1 a1, Turn.mk q2 a2]).map Turn.question =
      hist0.map Turn.question ++ [q1, q2] := by
  have hfu : is_follow_up q2 = true := by
    have := h2
    unfold classifiedFollowUp at this
    exact (Bool.and_eq_true _ _ ▸ this).2
  have heq : effectiveQuery (hist0 ++ [⟨q1, a1⟩]) q2 =
      "Previous question: " ++ q1 ++ "\nCurrent question: " ++ q2 := by
    unfold effectiveQuery
    rw [List.getLast?_concat, hfu]
    simp
  refine ⟨?_, heq, ?_, ?_⟩
  · unfold chat
    rw [h1]
  · unfold chat
    rw [heq, h3]
    simp
  · simp

/-- Witness for C3 at concrete questions and oracles. -/
theorem C3_witness :
    chat (fun _ => some ("A2", ([] : List String))) [⟨"Q1", "A1"⟩] "his" =
      ([⟨"Q1", "A1"⟩, ⟨"his", "A2"⟩], some ("A2", [])) :=
  (C3_follow_up_query_frame (fun _ => some ("A1", ([] : List String)))
    (fun _ => some ("A2", [])) [] "Q1" "his" "A1" "A2" [] []
    rfl (by decide) rfl).2.2.1

/-- C5 counterexample: the dump below produces one non-empty row chunk whose
cleaned text parses to only two values; the claim demands a record padded
with 21 trailing nulls, but `parse_sql_alternative` emits no record at all
(its guard `len(values) >= len(columns)` skips short rows). -/
theorem C5_counterexample :
    parseRecordValuesL (cleanChunk "('a','b');".toList) = [some "a", some "b"] ∧
    parse_sql_alternative "INSERT INTO voters VALUES\n('a','b');" columns = [] := by
  decide

/-- C5 as amended: a non-empty row chunk with fewer parsed values than
declared columns is skipped entirely (no record is emitted for it), and a
chunk with at least as many values as columns is emitted with the excess
values silently discarded (the built record only depends on the first
`cols.length` values). -/
theorem C5_fallback_row_arity (cols : List String) (chunk : List Char)
    (hne : (cleanChunk chunk).isEmpty = false) :
    ((parseRecordValuesL (cleanChunk chunk)).length < cols.length →
      processChunk cols chunk = none) ∧
    (cols.length ≤ (parseRecordValuesL (cleanChunk chunk)).length →
      processChunk cols chunk =
        some (buildAlt cols ((parseRecordValuesL (cleanChunk chunk)).take cols.length))) := by
  constructor
  · intro hlt
    unfold processChunk
    simp only [hne, Bool.false_eq_true, if_false]
    rw [if_neg (by omega)]
  · intro hle
    unfold processChunk
    simp only [hne, Bool.false_eq_true, if_false]
    rw [if_pos hle, buildAlt_take]

/-- Witness for C5 at concrete chunks: a two-value chunk against the 23
columns is skipped; the same chunk against a single declared column is
emitted with the second value discarded. -/
theorem C5_witness :
    processChunk columns "('a','b');".toList = none ∧
    processChunk ["x"] "('a','b');".toList = some [("x", some "a")] :=
  ⟨(C5_fallback_row_arity columns _ (by decide)).1 (by decide),
   (C5_fallback_row_arity ["x"] _ (by decide)).2 (by decide)⟩

/-- C7: every record emitted by `parse_sql_dump` — through either strategy —
carries exactly the 23 declared column keys, in order (each value is a
string or null by the type `PyVal`); and parsing a single well-formed
row-tuple yields exactly one record with all declared keys. -/
theorem C7_records_have_all_columns :
    (∀ content : String, ∀ v ∈ parse_sql_dump content, v.map Prod.fst = columns) ∧
    parse_sql_dump wellFormedRow = [wellFormedParsed] ∧
    wellFormedParsed.map Prod.fst = columns := by
  refine ⟨?_, by decide, by decide⟩
  intro content v hv
  unfold parse_sql_dump at hv
  simp only at hv
  split at hv
  · -- fallback branch
    obtain ⟨chunk, hc, hp⟩ := List.mem_filterMap.1 hv
    unfold processChunk at hp
    split at hp
    · exact absurd hp (by simp)
    · split at hp
      · cases hp with
        | refl => exact keys_buildAlt columns _
      · exact absurd hp (by simp)
  · -- primary branch
    obtain ⟨g, hg, rfl⟩ := List.mem_map.1 hv
    exact keys_buildPrimary columns g

/-- Witness for C7 at the concrete well-formed row. -/
theorem C7_witness : wellFormedParsed.map Prod.fst = columns :=
  C7_records_have_all_columns.1 wellFormedRow wellFormedParsed (by decide)

/-- C8: at any token position of either strategy, an unquoted `NULL` token
parses to null and a quoted empty token `''` parses to the empty string, and
these two parsed representations are never equal (`none` versus `some ""`).
The first two conjuncts cover `parse_record_values`, the next three the
primary strategy's group cleanup (the group of a plain quoted field is the
content between the quotes, so `''` captures the empty group), and the next
two the fallback's second cleanup pass. -/
theorem C8_null_empty_distinct :
    (∀ (record : List Char) (i : Nat),
      (splitVals record [] false).get? i = some "NULL".toList →
      (parseRecordValuesL record).get? i = some none) ∧
    (∀ (record : List Char) (i : Nat),
      (splitVals record [] false).get? i = some "''".toList →
      (parseRecordValuesL record).get? i = some (some "")) ∧
    cleanPrimary "NULL" = none ∧
    cleanPrimary "''" = some "" ∧
    cleanPrimary "" = some "" ∧
    cleanAlt none = none ∧
    cleanAlt (some "") = some "" ∧
    (none : PyVal) ≠ some "" := by
  refine ⟨?_, ?_, by decide, by decide, by decide, by decide, by decide, by decide⟩
  · intro record i h
    unfold parseRecordValuesL
    rw [List.get?_map, h]
    decide
  · intro record i h
    unfold parseRecordValuesL
    rw [List.get?_map, h]
    decide

/-- Witness for C8 at a concrete record string holding both token forms. -/
theorem C8_witness :
    (parseRecordValuesL "NULL,''".toList).get? 0 = some none ∧
    (parseRecordValuesL "NULL,''".toList).get? 1 = some (some "") :=
  ⟨C8_null_empty_distinct.1 "NULL,''".toList 0 (by decide),
   C8_null_empty_distinct.2.1 "NULL,''".toList 1 (by decide)⟩

/-- One splitter step on a quote character: it is accumulated and the
`in_quotes` flag flips, whatever its prior state. -/
theorem splitVals_quote (rest cur : List Char) (inQ : Bool) :
    splitVals ('\'' :: rest) cur inQ = splitVals rest ('\'' :: cur) (!inQ) := by
  simp [splitVals]

/-- A run of non-quote characters (commas included) is accumulated verbatim
while the `in_quotes` flag is set: no comma inside quotes splits the token. -/
theorem splitVals_no_quote_run (cs : List Char) (rest cur : List Char)
    (h : ∀ c ∈ cs, c ≠ '\'') :
    splitVals (cs ++ rest) cur true = splitVals rest (cs.reverse ++ cur) true := by
  induction cs generalizing cur with
  | nil => simp
  | cons c cs ih =>
    have hc : c ≠ '\'' := h c (List.mem_cons_self c cs)
    have hrest : ∀ x ∈ cs, x ≠ '\'' := fun x hx => h x (List.mem_cons_of_mem c hx)
    rw [List.cons_append]
    rw [show splitVals (c :: (cs ++ rest)) cur true
        = splitVals (cs ++ rest) (c :: cur) true by
      simp [splitVals, hc]]
    rw [ih (c :: cur) hrest]
    simp

/-- Stripping whitespace from a token that starts and ends with a quote
character changes nothing. -/
theorem stripChars_quoted (l : List Char) :
    stripChars ('\'' :: (l ++ ['\''])) = '\'' :: (l ++ ['\'']) := by
  have hq : ¬ (Char.isWhitespace '\'' = true) := by decide
  have h2 : ('\'' :: (l ++ ['\''])).reverse = '\'' :: (l.reverse ++ ['\'']) := by
    simp
  unfold stripChars
  rw [List.dropWhile_cons, if_neg hq, h2, List.dropWhile_cons, if_neg hq, ← h2,
    List.reverse_reverse]

/-- Cleaning a token enclosed in one quote pair strips exactly that pair. -/
theorem cleanVal_quoted (l : List Char) :
    cleanVal ('\'' :: (l ++ ['\''])) = some (String.mk l) := by
  unfold cleanVal
  rw [stripChars_quoted]
  have hcond : (('\'' :: (l ++ ['\''])).head? = some '\'' &&
      ('\'' :: (l ++ ['\''])).getLast? = some '\'') = true := by
    rw [← List.cons_append, List.getLast?_concat]
    simp
  simp only [hcond, if_true]
  unfold dropFirstLast
  simp [List.dropLast_concat]

/-- C1 as amended: a quoted token containing a doubled single-quote parses as
a single value — the commas-and-quotes scanner never splits it, and one
enclosing quote pair is stripped — but the doubled quote inside is preserved
verbatim as two apostrophe characters; it is not collapsed to one. -/
theorem C1_doubled_quote_verbatim (a b : List Char)
    (ha : ∀ c ∈ a, c ≠ '\'') (hb : ∀ c ∈ b, c ≠ '\'') :
    parseRecordValuesL ('\'' :: (a ++ ('\'' :: '\'' :: (b ++ ['\''])))) =
      [some (String.mk (a ++ ('\'' :: '\'' :: b)))] := by
  unfold parseRecordValuesL
  rw [splitVals_quote]
  simp only [Bool.not_false]
  rw [splitVals_no_quote_run a _ _ ha, splitVals_quote]
  simp only [Bool.not_true]
  rw [splitVals_quote]
  simp only [Bool.not_false]
  rw [splitVals_no_quote_run b _ _ hb, splitVals_quote]
  simp only [Bool.not_true]
  unfold splitVals
  simp only [List.isEmpty_cons, Bool.false_eq_true, if_false]
  have hrev : ('\'' :: (b.reverse ++ ('\'' :: ('\'' :: (a.reverse ++ ['\'']))))).reverse
      = '\'' :: ((a ++ ('\'' :: '\'' :: b)) ++ ['\'']) := by
    simp
  rw [hrev, stripChars_quoted]
  simp only [List.map_cons, List.map_nil]
  rw [cleanVal_quoted]

/-- Witness for C1 at the concrete token `'don''t'`. -/
theorem C1_witness :
    parseRecordValuesL ('\'' :: ("don".toList ++ ('\'' :: '\'' :: ("t".toList ++ ['\''])))) =
      [some (String.mk ("don".toList ++ ('\'' :: '\'' :: "t".toList)))] :=
  C1_doubled_quote_verbatim "don".toList "t".toList (by decide) (by decide)

/-- C1 counterexample: the row `'don''t'` parses to the single value
`don''t` — two apostrophes at the escaped position, not the single literal
apostrophe the claim states. -/
theorem C1_counterexample :
    parse_record_values "'don''t'" = [some "don''t"] ∧
    parse_record_values "'don''t'" ≠ [some "don't"] := by decide

/-- C4, evaluated at the failing input: for a record whose `occupation` key is
present with value `None`, the synthesized text body contains no occupation
line (neither the Bengali label nor the word `Occupation` occurs in it), but
the metadata `occupation` entry is `None` — not the empty string the claim
(and the spec's normalization note) state.  Python's `dict.get('occupation',
'')` returns the stored `None`; its `''` default applies only to an absent
key, and the parser always emits the key. -/
theorem C4_metadata_occupation_none :
    (mkVoterDoc occNullVoter).metadata.lookup "occupation" = some none ∧
    (mkVoterDoc occNullVoter).metadata.lookup "occupation" ≠ some (some "") ∧
    fieldLine occNullVoter "occupation" "পেশা (Occupation): " = none ∧
    ((textParts occNullVoter).all fun line =>
      !(containsSub "পেশা".toList line.toList)) = true ∧
    containsSub "Occupation".toList (mkVoterDoc occNullVoter).content.toList = false := by
  decide
